import Mathlib

/-!
Verification of the push-notification delivery and scheduling subsystem of the
`pkm` backend (`backend/app/push_service.py`, `backend/app/notification_scheduler.py`,
`backend/app/main.py`).  The Python code is shallowly embedded: database tables are
lists of rows, the outbound webpush call is an explicit input describing what the
external push service did, and exception control flow is made explicit with
`Except` / an explicit `raised` constructor.
-/

namespace Pkm

/-- A row of the `push_subscriptions` table (`database.PushSubscription`). -/
structure Subscription where
  id : Nat
  endpoint : String
  p256dh_key : String
  auth_key : String
  user_id : Nat
  is_active : Bool
deriving Repr, DecidableEq

/-- What the external `pywebpush.webpush` call did for one subscription, seen from
the caller: it returned normally, raised `WebPushException` (whose `response`
attribute may be absent), or raised some other exception (e.g. a network error). -/
inductive WebpushResult where
  | success
  | webPushError (responseStatus : Option Nat)
  | otherError
deriving Repr, DecidableEq

/-- Result of `PushNotificationService._send_to_subscription`: the coroutine either
returns a boolean or lets an exception propagate to the caller. -/
inductive SendResult where
  | ok (valid : Bool)
  | raised
deriving Repr, DecidableEq

/-- Embedding of `PushNotificationService._send_to_subscription`
(`push_service.py` lines 101-141): success returns `True`; a `WebPushException`
whose response has status 400, 404, 410 or 413 returns `False`; every other
`WebPushException` (including one without a response) and every other exception
is re-raised. -/
def send_to_subscription (r : WebpushResult) : SendResult :=
  match r with
  | .success => .ok true
  | .webPushError (some s) =>
      if s = 400 ∨ s = 404 ∨ s = 410 ∨ s = 413 then .ok false else .raised
  | .webPushError none => .raised
  | .otherError => .raised

/-- What happened on the wire for one delivery attempt: the push service answered
with some HTTP status, or the request failed at the network level
(timeout, connection refused). -/
inductive DeliveryAttempt where
  | httpResponse (status : Nat)
  | networkFailure
deriving Repr, DecidableEq

/-- Model of the external `pywebpush.webpush` call as used by
`_send_to_subscription`: a 2xx push-service response makes it return normally, a
non-2xx response makes it raise `WebPushException` carrying that response, and a
network-level failure escapes as an ordinary (non-WebPush) exception. -/
def webpushCall : DeliveryAttempt → WebpushResult
  | .httpResponse s => if 200 ≤ s ∧ s < 300 then .success else .webPushError (some s)
  | .networkFailure => .otherError

/-- The spec's per-attempt delivery outcome taxonomy. -/
inductive DeliveryOutcome where
  | Delivered
  | PermanentFailure
  | TransientFailure
deriving Repr, DecidableEq

/-- The outcome classification realised by the code for one delivery attempt:
`_send_to_subscription` returning `True` is `Delivered`, returning `False` is
`PermanentFailure`, and an exception propagating out of it is `TransientFailure`
(the batch loop catches it and counts it as a failure). -/
def classifyOutcome (a : DeliveryAttempt) : DeliveryOutcome :=
  match send_to_subscription (webpushCall a) with
  | .ok true => .Delivered
  | .ok false => .PermanentFailure
  | .raised => .TransientFailure

/-- The `for subscription in active_subscriptions` loop of
`send_notification_to_all` (`push_service.py` lines 38-49), with its running
counters and the `inactive_subscriptions` accumulator made explicit.  A `raised`
send is caught by the loop's `except Exception` and treated like a returned
`False`: counted as failed and appended to `inactive_subscriptions`. -/
def dispatchLoop (world : Subscription → WebpushResult) :
    List Subscription → Nat → Nat → List Nat → Nat × Nat × List Nat
  | [], succ, fail, inact => (succ, fail, inact)
  | s :: rest, succ, fail, inact =>
    match send_to_subscription (world s) with
    | .ok true => dispatchLoop world rest (succ + 1) fail inact
    | .ok false => dispatchLoop world rest succ (fail + 1) (inact ++ [s.id])
    | .raised => dispatchLoop world rest succ (fail + 1) (inact ++ [s.id])

/-- The bulk update `db.query(...).filter(id.in_(ids)).update({is_active: False})`:
every row whose id is among `ids` has its active flag cleared; other rows are
untouched. -/
def quarantine (ids : List Nat) (db : List Subscription) : List Subscription :=
  db.map (fun s => if s.id ∈ ids then { s with is_active := false } else s)

/-- Everything observable about one `send_notification_to_all` batch: the returned
pair of counts, the table afterwards, and the list of bulk quarantine updates the
batch issued (each element is the id list of one `update` call). -/
structure BatchResult where
  successful_sends : Nat
  failed_sends : Nat
  db : List Subscription
  quarantineCalls : List (List Nat)
deriving Repr, DecidableEq

/-- Embedding of `PushNotificationService.send_notification_to_all`
(`push_service.py` lines 24-60): load the active subscriptions, return `(0, 0)`
at once if there are none, otherwise run the delivery loop and, if any ids were
collected, clear their active flags in one bulk update. -/
def send_notification_to_all (world : Subscription → WebpushResult)
    (db : List Subscription) : BatchResult :=
  let active := db.filter (fun s => s.is_active)
  if active.isEmpty then
    ⟨0, 0, db, []⟩
  else
    match dispatchLoop world active 0 0 [] with
    | (succ, fail, inact) =>
      if inact.isEmpty then ⟨succ, fail, db, []⟩
      else ⟨succ, fail, quarantine inact db, [inact]⟩

/-- A row of the `notes` table, keeping only the fields the scheduler reads.
`ai_summary` is a nullable column: `none` models SQL NULL. -/
structure Note where
  id : Nat
  ai_summary : Option String
deriving Repr, DecidableEq

/-- The scheduler's candidate query
`db.query(Note).filter(Note.ai_summary.isnot(None)).all()`
(`notification_scheduler.py` line 46): all rows whose summary is non-NULL. -/
def candidateNotes (notes : List Note) : List Note :=
  notes.filter (fun n => n.ai_summary.isSome)

/-- The candidate set as the spec words it: all content items that have a
non-empty announceable summary (so a present-but-empty summary does not
qualify).  Written from the spec, for comparison with `candidateNotes`. -/
def candidateNotesSpec (notes : List Note) : List Note :=
  notes.filter (fun n => !(n.ai_summary.getD "" == ""))

/-- Embedding of `NotificationScheduler.send_daily_notification`
(`notification_scheduler.py` lines 42-70): load the candidate notes; if there are
none, log and return with the cursor untouched; otherwise select
`notes[current_note_index % len(notes)]`, increment the cursor, and dispatch a
notification for the selected note.  The first component is the note announced
(`none` means nothing was sent). -/
def send_daily_notification (notes : List Note) (current_note_index : Nat) :
    Option Note × Nat :=
  let cands := candidateNotes notes
  if h : cands = [] then
    (none, current_note_index)
  else
    (some (cands.get ⟨current_note_index % cands.length,
        Nat.mod_lt _ (List.length_pos.mpr h)⟩),
     current_note_index + 1)

/-- Runs `n` consecutive scheduler firings against a fixed notes table, starting
from cursor `idx`; returns the per-firing selections and the final cursor. -/
def runFirings (notes : List Note) : Nat → Nat → List (Option Note) × Nat
  | 0, idx => ([], idx)
  | n + 1, idx =>
    match send_daily_notification notes idx with
    | (sel, idx2) =>
      match runFirings notes n idx2 with
      | (rest, idxF) => (sel :: rest, idxF)

/-- The lookup predicate of the subscribe handler's query
(`main.py` lines 244-248): same `endpoint` and same `user_id`. -/
def subMatches (endpoint : String) (user_id : Nat) (s : Subscription) : Bool :=
  s.endpoint == endpoint && s.user_id == user_id

/-- SQLAlchemy `.first()` followed by mutating the returned row: update the first
row satisfying `p` with `f`, leave everything else in place. -/
def updateFirst (p : Subscription → Bool) (f : Subscription → Subscription) :
    List Subscription → List Subscription
  | [] => []
  | s :: rest => if p s then f s :: rest else s :: updateFirst p f rest

/-- The upsert performed by `subscribe_to_notifications` (`main.py` lines
244-266): look up an existing row by `(endpoint, user_id)`; if found, overwrite
its keys and set it active; otherwise append a fresh active row.  `fresh_id` is
the surrogate id the database would assign to a new row. -/
def upsert (endpoint p256dh auth : String) (user_id fresh_id : Nat)
    (db : List Subscription) : List Subscription :=
  match db.find? (subMatches endpoint user_id) with
  | some _ =>
      updateFirst (subMatches endpoint user_id)
        (fun s => { s with p256dh_key := p256dh, auth_key := auth, is_active := true }) db
  | none => db ++ [⟨fresh_id, endpoint, p256dh, auth, user_id, true⟩]

/-- A sequence of upsert calls for one fixed `(endpoint, user_id)` pair; each call
supplies its keys and the fresh surrogate id an insert would use. -/
def applyUpserts (endpoint : String) (user_id : Nat) :
    List (String × String × Nat) → List Subscription → List Subscription
  | [], db => db
  | (p, a, fid) :: rest, db =>
    applyUpserts endpoint user_id rest (upsert endpoint p a user_id fid db)

/-- Number of rows for a given `(endpoint, user_id)` pair. -/
def countMatching (endpoint : String) (user_id : Nat) (db : List Subscription) : Nat :=
  (db.filter (subMatches endpoint user_id)).length

/-- Python truthiness of an optional string field, as tested by
`not all([endpoint, p256dh, auth])`: `None` and the empty string are falsy. -/
def truthy : Option String → Bool
  | none => false
  | some s => !(s == "")

/-- The fields the subscribe handler extracts from the request body; a missing
field is `none`, an empty field is `some ""`. -/
structure SubscribeRequest where
  endpoint : Option String
  p256dh : Option String
  auth : Option String
deriving Repr, DecidableEq

/-- What the HTTP caller of the subscribe route observes. -/
inductive HandlerResult where
  | ok (message : String)
  | httpError (status : Nat) (detail : String)
deriving Repr, DecidableEq

/-- The body of the `try:` block of `subscribe_to_notifications` (`main.py` lines
234-268): validate the three fields via Python truthiness, raising
`HTTPException(400, "Invalid subscription data")` when any is missing or empty,
otherwise upsert the subscription and return the success message. -/
def subscribe_body (req : SubscribeRequest) (user_id fresh_id : Nat)
    (db : List Subscription) : Except (Nat × String) (String × List Subscription) :=
  if truthy req.endpoint && truthy req.p256dh && truthy req.auth then
    .ok ("Successfully subscribed to notifications",
      upsert (req.endpoint.getD "") (req.p256dh.getD "") (req.auth.getD "")
        user_id fresh_id db)
  else
    .error (400, "Invalid subscription data")

/-- Embedding of the whole `subscribe_to_notifications` handler (`main.py` lines
234-273).  The `except Exception` clause catches every exception raised inside the
`try:` block — including the handler's own `HTTPException(400)`, since FastAPI's
`HTTPException` derives from `Exception` — rolls the session back, and raises
`HTTPException(500, "Failed to subscribe")` in its place. -/
def subscribe_to_notifications (req : SubscribeRequest) (user_id fresh_id : Nat)
    (db : List Subscription) : HandlerResult × List Subscription :=
  match subscribe_body req user_id fresh_id db with
  | .ok (msg, db2) => (.ok msg, db2)
  | .error _ => (.httpError 500 "Failed to subscribe", db)

/-- The hardcoded development fallback for `VAPID_PRIVATE_KEY`
(`push_service.py` line 12). -/
def default_vapid_private_key : String :=
  "CJxrXYFUOEzkYCKEqD6DLapI9Qwmu-1NA7L36u8caLQ"

/-- The hardcoded development fallback for `VAPID_PUBLIC_KEY`
(`push_service.py` line 13). -/
def default_vapid_public_key : String :=
  "BLlpxAkzak5Y9Bkp6wU_Q3TnXDCSjJB1yC0_sEfgxHYRMrzJhngxZU8vJ3IXNmFx2Ls8h7NaHwpmwbhPZeVXPM0"

/-- The VAPID configuration held by `PushNotificationService`. -/
structure PushNotificationService where
  vapid_private_key : String
  vapid_public_key : String
deriving Repr, DecidableEq

/-- `os.getenv(name, default)` over an environment given as a partial map. -/
def getenvD (env : String → Option String) (name default : String) : String :=
  (env name).getD default

/-- Embedding of module import plus `PushNotificationService.__init__`
(`push_service.py` lines 12-22).  The `Except` is the channel a fail-fast startup
abort would use; the code performs no check, so construction always succeeds,
falling back to the hardcoded development keys when the environment variables are
absent. -/
def initPushService (env : String → Option String) :
    Except String PushNotificationService :=
  .ok { vapid_private_key := getenvD env "VAPID_PRIVATE_KEY" default_vapid_private_key,
        vapid_public_key := getenvD env "VAPID_PUBLIC_KEY" default_vapid_public_key }

/-- A subscription whose delivery attempt makes `_send_to_subscription` return
`True` — the only case the batch loop counts as a success. -/
def isDelivered (world : Subscription → WebpushResult) (s : Subscription) : Bool :=
  send_to_subscription (world s) == .ok true

/-- Closed form of the batch loop: the success counter gains one per delivered
subscription, the failure counter one per non-delivered subscription, and the
`inactive_subscriptions` accumulator collects the ids of every non-delivered
subscription — whether its send returned `False` or raised. -/
theorem dispatchLoop_eq (world : Subscription → WebpushResult)
    (subs : List Subscription) :
    ∀ succ fail inact, dispatchLoop world subs succ fail inact =
      (succ + (subs.filter (isDelivered world)).length,
       fail + (subs.filter (fun s => !(isDelivered world s))).length,
       inact ++ (subs.filter (fun s => !(isDelivered world s))).map (fun s => s.id)) := by
  induction subs with
  | nil => intro succ fail inact; simp [dispatchLoop]
  | cons s rest ih =>
    intro succ fail inact
    have hd : isDelivered world s = (send_to_subscription (world s) == .ok true) := rfl
    cases hs : send_to_subscription (world s) with
    | ok b =>
      cases b with
      | true =>
        simp only [dispatchLoop, hs, ih, List.filter_cons, hd, beq_self_eq_true,
          if_true, Bool.not_true, if_false, List.length_cons, Prod.mk.injEq]
        refine ⟨by omega, rfl, rfl⟩
      | false =>
        have hne : (isDelivered world s) = false := by
          simp [isDelivered, hs]
        simp only [dispatchLoop, hs, ih, List.filter_cons, hne, Bool.not_false,
          if_true, if_false, List.length_cons, List.map_cons, Prod.mk.injEq]
        refine ⟨rfl, by omega, by simp⟩
    | raised =>
      have hne : (isDelivered world s) = false := by
        simp [isDelivered, hs]
      simp only [dispatchLoop, hs, ih, List.filter_cons, hne, Bool.not_false,
        if_true, if_false, List.length_cons, List.map_cons, Prod.mk.injEq]
      refine ⟨rfl, by omega, by simp⟩

/-- The active-subscription query of `send_notification_to_all`:
`db.query(PushSubscription).filter(PushSubscription.is_active == True).all()`. -/
def activeSubs (db : List Subscription) : List Subscription :=
  db.filter (fun s => s.is_active)

/-- The subscriptions of a batch whose send returned `False`, i.e. whose
`WebPushException` status was one of 400/404/410/413 (permanent failures). -/
def permanentFailures (world : Subscription → WebpushResult)
    (subs : List Subscription) : List Subscription :=
  subs.filter (fun s => send_to_subscription (world s) == .ok false)

theorem length_filter_split {α : Type} (p : α → Bool) (l : List α) :
    (l.filter p).length + (l.filter (fun a => !(p a))).length = l.length := by
  induction l with
  | nil => simp
  | cons a t ih => cases h : p a <;> simp [List.filter_cons, h] <;> omega

theorem quarantine_nil (db : List Subscription) : quarantine [] db = db := by
  simp [quarantine]

theorem activeSubs_isEmpty_false {db : List Subscription}
    (h : activeSubs db ≠ []) : (activeSubs db).isEmpty = false := by
  cases hA : activeSubs db with
  | nil => exact absurd hA h
  | cons a t => rfl

/-- C9: when zero subscriptions are active, `send_notification_to_all` returns
`(0, 0)`, leaves the table untouched, and issues no quarantine update. -/
theorem C9_sendToAll_empty (world : Subscription → WebpushResult)
    (db : List Subscription) (h : activeSubs db = []) :
    send_notification_to_all world db = ⟨0, 0, db, []⟩ := by
  have hE : (db.filter (fun s => s.is_active)).isEmpty = true := by
    have : db.filter (fun s => s.is_active) = [] := h
    simp [this]
  simp [send_notification_to_all, hE]

theorem C9_sendToAll_empty_witness :
    send_notification_to_all (fun _ => WebpushResult.success)
      [⟨1, "https://push.example/ep", "p256", "auth", 2, false⟩] =
      ⟨0, 0, [⟨1, "https://push.example/ep", "p256", "auth", 2, false⟩], []⟩ :=
  C9_sendToAll_empty (fun _ => WebpushResult.success)
    [⟨1, "https://push.example/ep", "p256", "auth", 2, false⟩] (by decide)

/-- C5: in a batch whose every delivery attempt either succeeds or fails
permanently (none raises), the returned counts are `(N - K, K)` where `N` is the
number of active subscriptions and `K` the number of permanent failures, the
final table is exactly one bulk quarantine of those `K` ids, and exactly one
quarantine update is issued (none when `K = 0`). -/
theorem C5_sendToAll_counts (world : Subscription → WebpushResult)
    (db : List Subscription) (hne : activeSubs db ≠ [])
    (hnr : ∀ s ∈ activeSubs db, send_to_subscription (world s) ≠ .raised) :
    send_notification_to_all world db =
      ⟨(activeSubs db).length - (permanentFailures world (activeSubs db)).length,
       (permanentFailures world (activeSubs db)).length,
       quarantine ((permanentFailures world (activeSubs db)).map (fun s => s.id)) db,
       if permanentFailures world (activeSubs db) = [] then []
       else [(permanentFailures world (activeSubs db)).map (fun s => s.id)]⟩ := by
  have hE : (activeSubs db).isEmpty = false := activeSubs_isEmpty_false hne
  have hfc : (activeSubs db).filter (fun s => !(isDelivered world s)) =
      permanentFailures world (activeSubs db) := by
    apply List.filter_congr
    intro s hs
    have hr := hnr s hs
    cases h : send_to_subscription (world s) with
    | ok b => cases b <;> simp [isDelivered, h]
    | raised => exact absurd h hr
  have hsplit := length_filter_split (isDelivered world) (activeSubs db)
  rw [hfc] at hsplit
  show (if (activeSubs db).isEmpty = true then _ else _) = _
  rw [hE]
  simp only [Bool.false_eq_true, if_false, dispatchLoop_eq, Nat.zero_add,
    List.nil_append]
  rw [show List.filter (fun s => s.is_active) db = activeSubs db from rfl, hfc]
  by_cases hP : permanentFailures world (activeSubs db) = []
  · have ha : (permanentFailures world (activeSubs db)).length = 0 := by
      rw [hP]; rfl
    simp only [hP, List.map_nil, List.isEmpty_nil, if_true, quarantine_nil,
      List.length_nil, BatchResult.mk.injEq]
    repeat' apply And.intro
    all_goals first | omega | trivial
  · have hm : ((permanentFailures world (activeSubs db)).map (fun s => s.id)) ≠ [] := by
      simp [List.map_eq_nil_iff, hP]
    have hmE : ((permanentFailures world (activeSubs db)).map (fun s => s.id)).isEmpty
        = false := by
      cases hx : (permanentFailures world (activeSubs db)).map (fun s => s.id) with
      | nil => exact absurd hx hm
      | cons a t => rfl
    simp only [hmE, Bool.false_eq_true, if_false, if_neg hP, BatchResult.mk.injEq]
    repeat' apply And.intro
    all_goals first | omega | trivial

theorem C5_sendToAll_counts_witness :
    send_notification_to_all
      (fun s => if s.id == 1 then WebpushResult.success
                else WebpushResult.webPushError (some 410))
      [⟨1, "https://push.example/a", "pa", "aa", 7, true⟩,
       ⟨2, "https://push.example/b", "pb", "ab", 7, true⟩,
       ⟨3, "https://push.example/c", "pc", "ac", 7, false⟩] =
      ⟨1, 1,
       [⟨1, "https://push.example/a", "pa", "aa", 7, true⟩,
        ⟨2, "https://push.example/b", "pb", "ab", 7, false⟩,
        ⟨3, "https://push.example/c", "pc", "ac", 7, false⟩],
       [[2]]⟩ := by
  have h := C5_sendToAll_counts
    (fun s => if s.id == 1 then WebpushResult.success
              else WebpushResult.webPushError (some 410))
    [⟨1, "https://push.example/a", "pa", "aa", 7, true⟩,
     ⟨2, "https://push.example/b", "pb", "ab", 7, true⟩,
     ⟨3, "https://push.example/c", "pc", "ac", 7, false⟩]
    (by decide) (by decide)
  rw [h]
  decide

/-- C1 counterexample: one active subscription whose delivery attempt is a
TransientFailure (a `WebPushException` with HTTP status 503).  The claim says it
keeps `active = true` after the batch; in fact the batch loop's
`except Exception` catches the re-raised error, appends the id to
`inactive_subscriptions`, and the bulk update clears the flag: the batch ends
with the row inactive and a quarantine update naming it. -/
theorem C1_transient_quarantined_cex :
    classifyOutcome (.httpResponse 503) = .TransientFailure ∧
    send_notification_to_all (fun _ => .webPushError (some 503))
      [⟨1, "https://push.example/a", "p256", "auth", 7, true⟩] =
      ⟨0, 1, [⟨1, "https://push.example/a", "p256", "auth", 7, false⟩], [[1]]⟩ := by
  constructor
  · rfl
  · rfl

/-- C1 (amended): in every batch send, every active subscription whose delivery
attempt is not `Delivered` — whether it classifies as PermanentFailure or as
TransientFailure — is included in the single quarantine update, and its rows are
inactive once the batch completes. -/
theorem C1_failed_always_quarantined (world : Subscription → WebpushResult)
    (db : List Subscription) (s : Subscription)
    (hmem : s ∈ db) (hact : s.is_active = true)
    (hfail : send_to_subscription (world s) ≠ .ok true) :
    (∃ ids, (send_notification_to_all world db).quarantineCalls = [ids] ∧ s.id ∈ ids) ∧
    ∀ r ∈ (send_notification_to_all world db).db, r.id = s.id → r.is_active = false := by
  have hsA : s ∈ activeSubs db := by
    simp [activeSubs, List.mem_filter, hmem, hact]
  have hsF : s ∈ (activeSubs db).filter (fun x => !(isDelivered world x)) := by
    refine List.mem_filter.mpr ⟨hsA, ?_⟩
    simp only [isDelivered, Bool.not_eq_true', beq_eq_false_iff_ne, ne_eq]
    exact hfail
  have hid : s.id ∈ ((activeSubs db).filter (fun x => !(isDelivered world x))).map
      (fun x => x.id) :=
    List.mem_map_of_mem (fun x => x.id) hsF
  have hne : activeSubs db ≠ [] := List.ne_nil_of_mem hsA
  have hE : (activeSubs db).isEmpty = false := activeSubs_isEmpty_false hne
  have hR : send_notification_to_all world db =
      ⟨((activeSubs db).filter (isDelivered world)).length,
       ((activeSubs db).filter (fun x => !(isDelivered world x))).length,
       quarantine (((activeSubs db).filter (fun x => !(isDelivered world x))).map
         (fun x => x.id)) db,
       [((activeSubs db).filter (fun x => !(isDelivered world x))).map
         (fun x => x.id)]⟩ := by
    have hm : (((activeSubs db).filter (fun x => !(isDelivered world x))).map
        (fun x => x.id)) ≠ [] := List.ne_nil_of_mem hid
    have hmE : (((activeSubs db).filter (fun x => !(isDelivered world x))).map
        (fun x => x.id)).isEmpty = false := by
      cases hx : ((activeSubs db).filter (fun x => !(isDelivered world x))).map
          (fun x => x.id) with
      | nil => exact absurd hx hm
      | cons a t => rfl
    show (if (activeSubs db).isEmpty = true then _ else _) = _
    rw [hE]
    simp only [Bool.false_eq_true, if_false, dispatchLoop_eq, Nat.zero_add,
      List.nil_append]
    rw [show List.filter (fun x => x.is_active) db = activeSubs db from rfl]
    rw [hmE]
    simp
  constructor
  · exact ⟨_, by rw [hR], hid⟩
  · intro r hr hid2
    rw [hR] at hr
    simp only [quarantine, List.mem_map] at hr
    obtain ⟨x, hx, hxr⟩ := hr
    by_cases hxin : ∃ a ∈ (activeSubs db).filter (fun y => !(isDelivered world y)),
        a.id = x.id
    · rw [if_pos hxin] at hxr
      rw [← hxr]
    · rw [if_neg hxin] at hxr
      subst hxr
      obtain ⟨a, ha, haid⟩ := List.mem_map.mp hid
      exact absurd ⟨a, ha, haid.trans hid2.symm⟩ hxin

theorem C1_failed_always_quarantined_witness :
    (∃ ids, (send_notification_to_all (fun _ => WebpushResult.otherError)
      [⟨3, "https://push.example/b", "p3", "a3", 9, true⟩]).quarantineCalls = [ids] ∧
      (⟨3, "https://push.example/b", "p3", "a3", 9, true⟩ : Subscription).id ∈ ids) ∧
    ∀ r ∈ (send_notification_to_all (fun _ => WebpushResult.otherError)
      [⟨3, "https://push.example/b", "p3", "a3", 9, true⟩]).db,
      r.id = (⟨3, "https://push.example/b", "p3", "a3", 9, true⟩ : Subscription).id →
      r.is_active = false :=
  C1_failed_always_quarantined (fun _ => WebpushResult.otherError)
    [⟨3, "https://push.example/b", "p3", "a3", 9, true⟩]
    ⟨3, "https://push.example/b", "p3", "a3", 9, true⟩
    (by simp) (by rfl) (by decide)

/-- C3: the per-attempt classification is total and three-way: a 2xx response is
`Delivered`; status 400, 404, 410 or 413 is `PermanentFailure`; every other
non-2xx status, and every network-level failure, is `TransientFailure`. -/
theorem C3_outcome_classification (s : Nat) :
    (200 ≤ s ∧ s < 300 → classifyOutcome (.httpResponse s) = .Delivered) ∧
    ((s = 400 ∨ s = 404 ∨ s = 410 ∨ s = 413) →
      classifyOutcome (.httpResponse s) = .PermanentFailure) ∧
    (¬(200 ≤ s ∧ s < 300) → ¬(s = 400 ∨ s = 404 ∨ s = 410 ∨ s = 413) →
      classifyOutcome (.httpResponse s) = .TransientFailure) ∧
    classifyOutcome .networkFailure = .TransientFailure := by
  refine ⟨?_, ?_, ?_, rfl⟩
  · intro h
    simp [classifyOutcome, webpushCall, send_to_subscription, if_pos h]
  · intro h
    rcases h with h | h | h | h <;> subst h <;> rfl
  · intro h1 h2
    simp [classifyOutcome, webpushCall, if_neg h1, send_to_subscription, if_neg h2]

theorem C3_outcome_classification_witness :
    classifyOutcome (.httpResponse 201) = .Delivered ∧
    classifyOutcome (.httpResponse 410) = .PermanentFailure ∧
    classifyOutcome (.httpResponse 503) = .TransientFailure ∧
    classifyOutcome .networkFailure = .TransientFailure :=
  ⟨(C3_outcome_classification 201).1 (by decide),
   (C3_outcome_classification 410).2.1 (by decide),
   (C3_outcome_classification 503).2.2.1 (by decide) (by decide),
   (C3_outcome_classification 0).2.2.2⟩

theorem runFirings_zero (notes : List Note) (idx : Nat) :
    runFirings notes 0 idx = ([], idx) := rfl

theorem runFirings_succ (notes : List Note) (n idx : Nat) :
    runFirings notes (n + 1) idx =
      ((send_daily_notification notes idx).1 ::
        (runFirings notes n (send_daily_notification notes idx).2).1,
       (runFirings notes n (send_daily_notification notes idx).2).2) := rfl

/-- C6 counterexample: a content item whose summary is present but empty.  The
spec's candidate set (non-empty summaries) is empty, so the firing should skip
and send nothing; the code's candidate query only excludes NULL summaries, so it
selects the item, sends it, and advances the cursor. -/
theorem C6_empty_summary_cex :
    candidateNotesSpec [⟨1, some ""⟩] = [] ∧
    candidateNotes [⟨1, some ""⟩] = [⟨1, some ""⟩] ∧
    send_daily_notification [⟨1, some ""⟩] 0 = (some ⟨1, some ""⟩, 1) := by
  refine ⟨rfl, rfl, rfl⟩

/-- C6 (amended): on every firing the candidate set is exactly the content items
whose summary is present (non-NULL) — a present-but-empty summary also
qualifies — and when that set is empty the firing selects nothing, sends
nothing, and returns without error, leaving the cursor alone. -/
theorem C6_candidates_nonnull (notes : List Note) (idx : Nat) :
    (∀ n, n ∈ candidateNotes notes ↔ n ∈ notes ∧ n.ai_summary ≠ none) ∧
    (candidateNotes notes = [] → send_daily_notification notes idx = (none, idx)) := by
  constructor
  · intro n
    simp [candidateNotes, List.mem_filter, Option.isSome_iff_ne_none]
  · intro h
    simp [send_daily_notification, h]

theorem C6_candidates_nonnull_witness :
    ((⟨1, some ""⟩ : Note) ∈ candidateNotes [⟨1, some ""⟩, ⟨2, none⟩] ↔
      (⟨1, some ""⟩ : Note) ∈ [(⟨1, some ""⟩ : Note), ⟨2, none⟩] ∧
      (⟨1, some ""⟩ : Note).ai_summary ≠ none) ∧
    send_daily_notification [(⟨2, none⟩ : Note)] 5 = (none, 5) :=
  ⟨(C6_candidates_nonnull [⟨1, some ""⟩, ⟨2, none⟩] 0).1 ⟨1, some ""⟩,
   (C6_candidates_nonnull [⟨2, none⟩] 5).2 (by decide)⟩

/-- C8: with a fixed table whose candidate set has exactly three notes and no
restart, four consecutive firings select candidates 0, 1, 2 and 0 again — each
firing picks `candidates[current_note_index % 3]` and increments the cursor,
which ends at 4 with no bound check ever resetting it. -/
theorem send_daily_spec (notes : List Note) (l : List Note)
    (h : candidateNotes notes = l) (hne : l ≠ []) (idx : Nat) :
    send_daily_notification notes idx =
      (some (l.get ⟨idx % l.length, Nat.mod_lt _ (List.length_pos.mpr hne)⟩),
       idx + 1) := by
  subst h
  simp only [send_daily_notification]
  rw [dif_neg hne]

theorem C8_round_robin (notes : List Note) (a b c : Note)
    (h : candidateNotes notes = [a, b, c]) :
    runFirings notes 4 0 = ([some a, some b, some c, some a], 4) := by
  have hne : ([a, b, c] : List Note) ≠ [] := List.cons_ne_nil a [b, c]
  have s0 : send_daily_notification notes 0 = (some a, 1) := by
    rw [send_daily_spec notes [a, b, c] h hne 0]
    rfl
  have s1 : send_daily_notification notes 1 = (some b, 2) := by
    rw [send_daily_spec notes [a, b, c] h hne 1]
    rfl
  have s2 : send_daily_notification notes 2 = (some c, 3) := by
    rw [send_daily_spec notes [a, b, c] h hne 2]
    rfl
  have s3 : send_daily_notification notes 3 = (some a, 4) := by
    rw [send_daily_spec notes [a, b, c] h hne 3]
    have h0 : (⟨3 % ([a, b, c] : List Note).length,
        Nat.mod_lt _ (List.length_pos.mpr hne)⟩ :
          Fin ([a, b, c] : List Note).length) = ⟨0, by simp⟩ := by
      apply Fin.ext
      simp
    rw [h0]
    rfl
  simp only [runFirings_succ, runFirings_zero, s0, s1, s2, s3]

theorem C8_round_robin_witness :
    runFirings [⟨1, some "s1"⟩, ⟨2, some "s2"⟩, ⟨3, some "s3"⟩] 4 0 =
      ([some ⟨1, some "s1"⟩, some ⟨2, some "s2"⟩, some ⟨3, some "s3"⟩,
        some ⟨1, some "s1"⟩], 4) :=
  C8_round_robin [⟨1, some "s1"⟩, ⟨2, some "s2"⟩, ⟨3, some "s3"⟩]
    ⟨1, some "s1"⟩ ⟨2, some "s2"⟩ ⟨3, some "s3"⟩ (by decide)

/-- C10: when a firing finds the candidate set empty it returns with the cursor
unchanged (and selects nothing); when the set is non-empty the firing selects a
note and the cursor advances by exactly one — so only selecting firings shift
the round-robin position. -/
theorem C10_cursor_frame (notes : List Note) (idx : Nat) :
    (candidateNotes notes = [] → send_daily_notification notes idx = (none, idx)) ∧
    (candidateNotes notes ≠ [] →
      (send_daily_notification notes idx).2 = idx + 1 ∧
      (send_daily_notification notes idx).1 ≠ none) := by
  constructor
  · intro h
    simp [send_daily_notification, h]
  · intro h
    simp [send_daily_notification, h]

theorem C10_cursor_frame_witness :
    send_daily_notification [(⟨1, none⟩ : Note)] 7 = (none, 7) ∧
    (send_daily_notification [(⟨2, some "x"⟩ : Note)] 7).2 = 7 + 1 :=
  ⟨(C10_cursor_frame [⟨1, none⟩] 7).1 (by decide),
   ((C10_cursor_frame [⟨2, some "x"⟩] 7).2 (by decide)).1⟩

/-- C2: evaluation of the subscribe handler at malformed registration requests.
The inner `try:` body does raise `HTTPException(400, "Invalid subscription
data")` for an empty endpoint or a missing field, but the handler's own blanket
`except Exception` catches that very exception, rolls back, and re-raises
`HTTPException(500, "Failed to subscribe")` — so the HTTP caller observes a
server error (500), not a client error (4xx).  The table is never touched. -/
theorem C2_validation_surfaced_as_500 :
    subscribe_body ⟨some "", some "key1", some "auth1"⟩ 7 1 [] =
      .error (400, "Invalid subscription data") ∧
    subscribe_to_notifications ⟨some "", some "key1", some "auth1"⟩ 7 1 [] =
      (.httpError 500 "Failed to subscribe", []) ∧
    subscribe_to_notifications ⟨none, some "key1", some "auth1"⟩ 7 1
      [⟨1, "https://push.example/e", "p", "a", 7, true⟩] =
      (.httpError 500 "Failed to subscribe",
       [⟨1, "https://push.example/e", "p", "a", 7, true⟩]) :=
  ⟨rfl, rfl, rfl⟩

/-- C7 counterexample: with both VAPID environment variables absent, module
initialization does not abort — it succeeds and silently falls back to the
hardcoded development keys. -/
theorem C7_no_failfast_cex :
    initPushService (fun _ => none) =
      .ok ⟨default_vapid_private_key, default_vapid_public_key⟩ := rfl

/-- C7 (amended): initialization never fails, whatever the environment; when a
VAPID key variable is absent the service uses the hardcoded development
fallback key, and any failure is deferred to delivery time. -/
theorem C7_default_keys (env : String → Option String) :
    ∃ svc, initPushService env = .ok svc ∧
      (env "VAPID_PRIVATE_KEY" = none →
        svc.vapid_private_key = default_vapid_private_key) ∧
      (env "VAPID_PUBLIC_KEY" = none →
        svc.vapid_public_key = default_vapid_public_key) := by
  refine ⟨_, rfl, ?_, ?_⟩ <;> intro h <;> simp [getenvD, h]

theorem C7_default_keys_witness :
    ∃ svc, initPushService (fun _ => none) = .ok svc ∧
      svc.vapid_private_key = default_vapid_private_key ∧
      svc.vapid_public_key = default_vapid_public_key := by
  obtain ⟨svc, h1, h2, h3⟩ := C7_default_keys (fun _ => none)
  exact ⟨svc, h1, h2 rfl, h3 rfl⟩

theorem no_match_of_count_zero (e : String) (u : Nat) (db : List Subscription)
    (h : countMatching e u db = 0) :
    ∀ x ∈ db, ¬ subMatches e u x = true := by
  rw [countMatching, List.length_eq_zero] at h
  intro x hx hmx
  have hmem : x ∈ db.filter (subMatches e u) := List.mem_filter.mpr ⟨hx, hmx⟩
  rw [h] at hmem
  exact absurd hmem (List.not_mem_nil x)

theorem upsert_of_not_found (e p a : String) (u fid : Nat) (db : List Subscription)
    (h : countMatching e u db = 0) :
    upsert e p a u fid db = db ++ [⟨fid, e, p, a, u, true⟩] := by
  have hfind : db.find? (subMatches e u) = none :=
    List.find?_eq_none.mpr (no_match_of_count_zero e u db h)
  simp [upsert, hfind]

theorem countMatching_append_new (e p a : String) (u fid : Nat)
    (db : List Subscription) :
    countMatching e u (db ++ [⟨fid, e, p, a, u, true⟩]) =
      countMatching e u db + 1 := by
  simp [countMatching, List.filter_append, subMatches]

theorem updateFirst_single (e : String) (u : Nat) (f : Subscription → Subscription)
    (hf : ∀ s, subMatches e u (f s) = subMatches e u s) :
    ∀ db : List Subscription, countMatching e u db = 1 →
      countMatching e u (updateFirst (subMatches e u) f db) = 1 ∧
      ∀ r ∈ updateFirst (subMatches e u) f db, subMatches e u r = true →
        ∃ s, r = f s := by
  intro db
  induction db with
  | nil => intro h; simp [countMatching] at h
  | cons s rest ih =>
    intro h
    by_cases hs : subMatches e u s = true
    · have hcr : (rest.filter (subMatches e u)).length = 0 := by
        have h' := h
        simp only [countMatching, List.filter_cons, hs, if_true, List.length_cons] at h'
        omega
      have hnomatch : ∀ x ∈ rest, ¬ subMatches e u x = true :=
        no_match_of_count_zero e u rest hcr
      have hupd : updateFirst (subMatches e u) f (s :: rest) = f s :: rest := by
        simp [updateFirst, hs]
      rw [hupd]
      constructor
      · simp only [countMatching, List.filter_cons, hf, hs, if_true, List.length_cons]
        omega
      · intro r hr hmr
        rcases List.mem_cons.mp hr with h1 | h1
        · exact ⟨s, h1⟩
        · exact absurd hmr (hnomatch r h1)
    · have hs' : subMatches e u s = false := by
        revert hs; cases subMatches e u s <;> simp
      have hcr : countMatching e u rest = 1 := by
        have h' := h
        simp only [countMatching, List.filter_cons, hs', Bool.false_eq_true,
          if_false] at h'
        exact h'
      obtain ⟨ih1, ih2⟩ := ih hcr
      have hupd : updateFirst (subMatches e u) f (s :: rest) =
          s :: updateFirst (subMatches e u) f rest := by
        simp [updateFirst, hs']
      rw [hupd]
      constructor
      · simp only [countMatching, List.filter_cons, hs', Bool.false_eq_true, if_false]
        exact ih1
      · intro r hr hmr
        rcases List.mem_cons.mp hr with h1 | h1
        · subst h1
          exact absurd hmr (by simp [hs'])
        · exact ih2 r h1 hmr

theorem upsert_found (e p a : String) (u fid : Nat) (db : List Subscription)
    (h : countMatching e u db = 1) :
    countMatching e u (upsert e p a u fid db) = 1 ∧
    ∀ r ∈ upsert e p a u fid db, subMatches e u r = true →
      r.p256dh_key = p ∧ r.auth_key = a ∧ r.is_active = true := by
  have hfne : db.filter (subMatches e u) ≠ [] := by
    intro hnil
    rw [countMatching, hnil] at h
    simp at h
  have hfs : (db.find? (subMatches e u)).isSome := by
    rw [List.find?_isSome]
    obtain ⟨x, hx⟩ := List.exists_mem_of_ne_nil _ hfne
    exact ⟨x, (List.mem_filter.mp hx).1, (List.mem_filter.mp hx).2⟩
  obtain ⟨w, hw⟩ := Option.isSome_iff_exists.mp hfs
  have hup : upsert e p a u fid db =
      updateFirst (subMatches e u)
        (fun s => { s with p256dh_key := p, auth_key := a, is_active := true }) db := by
    simp [upsert, hw]
  rw [hup]
  obtain ⟨h1, h2⟩ := updateFirst_single e u
    (fun s => { s with p256dh_key := p, auth_key := a, is_active := true })
    (fun s => rfl) db h
  refine ⟨h1, ?_⟩
  intro r hr hmr
  obtain ⟨s, hsr⟩ := h2 r hr hmr
  subst hsr
  exact ⟨rfl, rfl, rfl⟩

theorem upsert_le_one (e p a : String) (u fid : Nat) (db : List Subscription)
    (h : countMatching e u db ≤ 1) :
    countMatching e u (upsert e p a u fid db) = 1 ∧
    ∀ r ∈ upsert e p a u fid db, subMatches e u r = true →
      r.p256dh_key = p ∧ r.auth_key = a ∧ r.is_active = true := by
  rcases Nat.le_one_iff_eq_zero_or_eq_one.mp h with h0 | h1
  · rw [upsert_of_not_found e p a u fid db h0]
    constructor
    · rw [countMatching_append_new, h0]
    · intro r hr hmr
      rcases List.mem_append.mp hr with hd | hd
      · exact absurd hmr (no_match_of_count_zero e u db h0 r hd)
      · have hr' : r = ⟨fid, e, p, a, u, true⟩ := List.mem_singleton.mp hd
        subst hr'
        exact ⟨rfl, rfl, rfl⟩
  · exact upsert_found e p a u fid db h1

/-- C4: starting from a table with no row for a given `(endpoint, owner)` pair,
any sequence of subscribe upserts for that pair — a first call followed by any
number of later calls — leaves exactly one row for the pair, never a duplicate;
that row is active and carries the keys of the most recent call. -/
theorem C4_upsert_idempotent (e : String) (u : Nat)
    (earlier : List (String × String × Nat)) (p a : String) (fid : Nat)
    (db0 : List Subscription) (h0 : countMatching e u db0 = 0) :
    countMatching e u (applyUpserts e u (earlier ++ [(p, a, fid)]) db0) = 1 ∧
    ∀ r ∈ applyUpserts e u (earlier ++ [(p, a, fid)]) db0,
      subMatches e u r = true →
      r.p256dh_key = p ∧ r.auth_key = a ∧ r.is_active = true := by
  have happ : ∀ (xs ys : List (String × String × Nat)) (db : List Subscription),
      applyUpserts e u (xs ++ ys) db = applyUpserts e u ys (applyUpserts e u xs db) := by
    intro xs
    induction xs with
    | nil => intro ys db; rfl
    | cons c rest ih =>
      intro ys db
      obtain ⟨cp, ca, cf⟩ := c
      simp only [List.cons_append, applyUpserts]
      exact ih ys (upsert e cp ca u cf db)
  have hle : ∀ (calls : List (String × String × Nat)) (db : List Subscription),
      countMatching e u db ≤ 1 →
      countMatching e u (applyUpserts e u calls db) ≤ 1 := by
    intro calls
    induction calls with
    | nil => intro db h; exact h
    | cons c rest ih =>
      intro db h
      obtain ⟨cp, ca, cf⟩ := c
      simp only [applyUpserts]
      exact ih _ (le_of_eq (upsert_le_one e cp ca u cf db h).1)
  rw [happ earlier [(p, a, fid)] db0]
  have hle1 : countMatching e u (applyUpserts e u earlier db0) ≤ 1 :=
    hle earlier db0 (by omega)
  simpa only [applyUpserts] using
    upsert_le_one e p a u fid (applyUpserts e u earlier db0) hle1

theorem C4_upsert_idempotent_witness :
    countMatching "https://push.example/w" 3
      (applyUpserts "https://push.example/w" 3
        ([("k1", "a1", 5)] ++ [("k2", "a2", 9)]) []) = 1 ∧
    ∀ r ∈ applyUpserts "https://push.example/w" 3
        ([("k1", "a1", 5)] ++ [("k2", "a2", 9)]) [],
      subMatches "https://push.example/w" 3 r = true →
      r.p256dh_key = "k2" ∧ r.auth_key = "a2" ∧ r.is_active = true :=
  C4_upsert_idempotent "https://push.example/w" 3 [("k1", "a1", 5)]
    "k2" "a2" 9 [] (by decide)

end Pkm
